import Mathlib

/-!
Verification of the ko_liwc feature-extraction-and-scoring pipeline.

The definitions below are a shallow embedding of the Python sources:
`ko_liwc/core/tokenizer.py` (the `Token` record), `ko_liwc/dictionaries/*`
(static word lists and weights), `ko_liwc/features/*` (the six feature
extractors), `ko_liwc/scoring/normalizer.py` (Min-Max and Z-Score
normalizers), `ko_liwc/scoring/weights.py` (trait weight tables), and
`ko_liwc/scoring/scorer.py` (the interview scorer).

Numeric conventions: Python floats are embedded as exact rationals (`ℚ`)
wherever the code performs only field arithmetic and comparisons, and as
real numbers (`ℝ`) where `math.exp` / `math.sqrt` appear (the sigmoid in
the scorer, the standard deviation in the z-score normalizer).  Python
dictionaries are embedded as insertion-ordered association lists; fallible
operations (`raise`) are embedded with `Except String`.
-/

/-- A single morphological token (`Token` in `core/tokenizer.py`).
The `end` offset is called `stop` because `end` is a Lean keyword. -/
structure Token where
  form : String
  tag : String
  start : Nat := 0
  stop : Nat := 0
  score : ℚ := 0
deriving Repr, DecidableEq

/-! ## String helpers

Python string primitives (`s.startswith(p)`, `s.endswith(p)`, `p in s`,
`s[:2]`, `len(s)`) embedded over `List Char` so that they reduce well. -/

/-- Python `s.startswith(p)` on exploded character lists. -/
def listStarts : List Char → List Char → Bool
  | [], _ => true
  | _ :: _, [] => false
  | a :: as, b :: bs => a = b && listStarts as bs

/-- Python `p in s` (substring containment) on exploded character lists. -/
def listContains : List Char → List Char → Bool
  | needle, [] => listStarts needle []
  | needle, c :: rest => listStarts needle (c :: rest) || listContains needle rest

/-- Python `s.startswith(p)`. -/
def pyStartsWith (s p : String) : Bool := listStarts p.toList s.toList

/-- Python `s.endswith(p)`. -/
def pyEndsWith (s p : String) : Bool := listStarts p.toList.reverse s.toList.reverse

/-- Python `p in s` (substring containment). -/
def pyContains (s p : String) : Bool := listContains p.toList s.toList

/-- Python `len(s)` (number of characters). -/
def pyLen (s : String) : ℕ := s.toList.length

/-- Python `s[:2]` (first two characters). -/
def pyTakeTwo (s : String) : List Char := s.toList.take 2

/-- Python `int(x)` on a nonnegative-or-negative rational: truncation toward
zero (`int(filler_count)` in `speaking_rate.py` / `misc.py`). -/
def pyInt (q : ℚ) : ℤ := if 0 ≤ q then ⌊q⌋ else ⌈q⌉

/-! ## Dictionaries (`ko_liwc/dictionaries/*.py`)

Python `Set[str]` values are embedded as `List String` (only membership is
ever used); `FILLERS : Dict[str, float]` keeps its weights as rationals. -/

/-- `EXCLUDED_TAGS` from `dictionaries/pos_mapping.py`: tags excluded from
the content-token count (punctuation, symbols, foreign script, digits). -/
def EXCLUDED_TAGS : List String :=
  ["SF", "SP", "SS", "SE", "SO", "SW", "SH", "SL", "SN"]

/-- `POS_TO_LIWC["article"]` from `dictionaries/pos_mapping.py`. -/
def ARTICLE_TAGS : List String := ["MM"]

/-- `POS_TO_LIWC["verb"]` from `dictionaries/pos_mapping.py`. -/
def VERB_TAGS : List String := ["VV", "VA", "VX", "VCP", "VCN"]

/-- `POS_TO_LIWC["adverb"]` from `dictionaries/pos_mapping.py`. -/
def ADVERB_TAGS : List String := ["MAG", "MAJ"]

/-- `POS_TO_LIWC["preposition"]` from `dictionaries/pos_mapping.py`. -/
def PREPOSITION_TAGS : List String := ["JKB"]

/-- `POS_TO_LIWC["conjunction"]` from `dictionaries/pos_mapping.py`. -/
def CONJUNCTION_TAGS : List String := ["JC"]

/-- `POS_TO_LIWC["number"]` from `dictionaries/pos_mapping.py`. -/
def NUMBER_TAGS : List String := ["SN", "NR"]

/-- `FILLERS` from `dictionaries/fillers.py`: filler words with confidence
weights. -/
def FILLERS : List (String × ℚ) :=
  [("음", 1.0), ("어", 1.0), ("에", 0.9), ("아", 0.9), ("으", 0.9),
   ("그", 0.8), ("저", 0.8), ("이", 0.7), ("뭐", 0.9), ("저기", 0.9),
   ("그러니까", 0.7), ("있잖아", 0.8), ("말이야", 0.7),
   ("약간", 0.6), ("좀", 0.5), ("뭐랄까", 0.9), ("어떻게", 0.5),
   ("글쎄", 0.8), ("아무튼", 0.6), ("어쨌든", 0.6), ("하여튼", 0.6),
   ("그래서", 0.4), ("근데", 0.5), ("그런데", 0.4), ("그리고", 0.3),
   ("아니", 0.6), ("막", 0.7), ("이제", 0.5), ("진짜", 0.4), ("솔직히", 0.4)]

/-- `get_filler_weight` from `dictionaries/fillers.py`:
`FILLERS.get(word, 0.0)`. -/
def getFillerWeight (word : String) : ℚ := (FILLERS.lookup word).getD 0

/-- `PRONOUNS_I_LEMMAS` from `dictionaries/pronouns.py`. -/
def PRONOUNS_I_LEMMAS : List String := ["나", "저", "내", "제"]

/-- `PRONOUNS_WE_LEMMAS` from `dictionaries/pronouns.py`. -/
def PRONOUNS_WE_LEMMAS : List String := ["우리", "저희"]

/-- `PRONOUNS_THEY_LEMMAS` from `dictionaries/pronouns.py`. -/
def PRONOUNS_THEY_LEMMAS : List String := ["그들", "그녀들", "저들", "이들"]

/-- `NEGATIONS` from `dictionaries/negations.py`. -/
def NEGATIONS : List String :=
  ["안", "못", "아니", "안되다", "못하다", "아니다", "아니야",
   "없다", "없는", "없어", "모르다", "모르는", "몰라",
   "아무", "아무도", "아무것도", "전혀", "결코", "절대", "절대로", "도저히",
   "거부", "거부하다", "거절", "거절하다", "반대", "반대하다", "부정", "부정하다",
   "부재", "결핍", "부족", "없음", "무", "비",
   "불", "미", "불가", "불능",
   "금지", "금하다", "말다", "마", "마라", "하지마", "하지 마",
   "않다", "않는", "않아", "지 않다", "지 않는", "지 못하다", "지 못하는"]

/-- `NEGATION_PATTERNS` from `dictionaries/negations.py`. -/
def NEGATION_PATTERNS : List String :=
  ["안", "못", "않", "없", "아니", "말", "불", "비", "무", "미"]

/-- `QUANTIFIERS` from `dictionaries/quantifiers.py`. -/
def QUANTIFIERS : List String :=
  ["모든", "모두", "전부", "전체", "전체의", "전체적", "다", "다들",
   "모조리", "하나도 빠짐없이",
   "많이", "많은", "많다", "적게", "적은", "적다", "조금", "약간", "좀",
   "아주", "매우", "굉장히", "엄청", "너무", "지나치게",
   "가장", "제일", "최고로",
   "더", "더욱", "한층", "덜", "보다", "훨씬", "조금 더",
   "몇", "몇몇", "여러", "약", "대략", "정도", "수많은", "수천", "수백",
   "어떤", "일부", "일부의", "부분", "부분적", "소수", "다수",
   "항상", "언제나", "늘", "자주", "종종", "가끔", "때때로", "이따금",
   "절대", "절대로", "전혀", "결코",
   "완전히", "완전", "충분히", "충분한", "거의", "대부분", "전적으로"]

/-- `WORK` from `dictionaries/work.py`. -/
def WORK : List String :=
  ["일", "일하다", "업무", "직장", "회사", "기업", "직업", "직위", "직책",
   "고용", "취업", "취직", "사원", "직원", "동료",
   "상사", "부하", "팀원", "팀장", "부장", "과장", "대리",
   "매니저", "리더", "책임자",
   "근무", "근무하다", "출근", "퇴근", "야근", "업무처리",
   "협업", "협력", "협조", "회의", "미팅", "보고",
   "프로젝트", "과제", "태스크", "목표", "마감", "일정", "스케줄", "계획",
   "성과", "실적", "결과", "달성", "달성하다", "성취", "성취하다",
   "완료", "완성", "마무리",
   "경력", "경험", "이력", "승진", "진급", "능력", "역량", "스킬",
   "전문", "전문성", "전문가",
   "비즈니스", "사업", "거래", "계약", "협상", "클라이언트", "고객",
   "산업", "분야", "섹터", "시장", "경쟁",
   "교육", "훈련", "연수", "자격증", "인증"]

/-- `RELATIVITY` from `dictionaries/relativity.py`. -/
def RELATIVITY : List String :=
  ["과거", "이전", "전에", "예전", "옛날", "지난", "었", "였", "았",
   "현재", "지금", "오늘", "이번", "요즘", "최근", "는", "ㄴ",
   "미래", "나중", "앞으로", "다음", "내일", "차후", "겠", "ㄹ",
   "동안", "기간", "시간", "때", "순간", "잠시", "오래", "잠깐", "일시",
   "자주", "가끔", "항상", "때때로", "종종", "늘", "매번", "매일", "매주",
   "여기", "저기", "거기", "이곳", "저곳", "그곳",
   "위", "아래", "앞", "뒤", "옆", "안", "밖", "속",
   "쪽", "방향", "방면", "향해", "향하다", "따라", "통해",
   "가까이", "가깝다", "멀리", "멀다", "근처", "주변", "부근",
   "가다", "오다", "움직이다", "이동", "이동하다", "진행", "진행하다",
   "나아가다", "돌아가다",
   "관련", "관련하다", "관련된", "대해", "대한", "대하여", "관하여", "관해",
   "따르다", "따라서", "따르면", "통하다", "통해서",
   "비해", "비하여", "대비", "대비하여", "달리", "반해"]

/-- `COGNITIVE` from `dictionaries/cognitive.py`. -/
def COGNITIVE : List String :=
  ["생각", "생각하다", "생각되다", "사고", "사고하다", "고려", "고려하다",
   "검토", "검토하다", "숙고", "숙고하다", "고민", "고민하다",
   "이해", "이해하다", "이해되다", "파악", "파악하다", "납득", "납득하다",
   "깨닫다", "깨달음", "인식", "인식하다",
   "알다", "알고", "알아", "모르다", "모르는", "지식", "지식적",
   "인지", "인지하다", "의식", "의식하다",
   "판단", "판단하다", "추론", "추론하다", "분석", "분석하다",
   "결론", "결론짓다", "추측", "추측하다",
   "배우다", "학습", "학습하다", "기억", "기억하다", "기억나다",
   "잊다", "잊어버리다", "상기", "상기하다",
   "결정", "결정하다", "선택", "선택하다", "결심", "결심하다",
   "믿다", "믿음", "의견", "견해", "확신", "확신하다", "추정", "추정하다"]

/-- `INHIBITION` from `dictionaries/cognitive.py`. -/
def INHIBITION : List String :=
  ["막다", "막는", "막아", "차단", "차단하다", "저지", "저지하다",
   "방해", "방해하다",
   "억제", "억제하다", "자제", "자제하다", "통제", "통제하다",
   "제한", "제한하다", "제어", "제어하다",
   "금지", "금지하다", "금하다", "못하게", "못하다", "불허", "불허하다",
   "멈추다", "멈춰", "중단", "중단하다", "중지", "중지하다",
   "그만", "그만두다",
   "피하다", "회피", "회피하다", "삼가다", "삼가", "자숙", "자숙하다"]

/-- `PERCEPTUAL` from `dictionaries/cognitive.py`. -/
def PERCEPTUAL : List String :=
  ["보다", "보이다", "봐", "바라보다", "쳐다보다", "관찰", "관찰하다",
   "목격", "목격하다", "시각", "시각적", "눈", "눈에",
   "듣다", "들리다", "들어", "청취", "청취하다", "소리", "소음",
   "청각", "청각적",
   "느끼다", "느낌", "느껴지다", "감각", "감각적", "촉각", "촉감",
   "만지다", "접촉", "감지", "감지하다",
   "맛", "맛보다", "냄새", "냄새나다", "냄새맡다", "향", "향기",
   "감", "기분", "인상", "인상적", "체감", "체감하다"]

/-- `POSITIVE_EMOTION` from `dictionaries/emotion.py`. -/
def POSITIVE_EMOTION : List String :=
  ["좋다", "좋은", "좋아", "좋고", "행복", "행복하다", "행복한",
   "기쁘다", "기쁜", "기뻐", "즐겁다", "즐거운", "즐거워",
   "사랑", "사랑하다", "사랑스럽다", "감사", "감사하다", "고맙다", "고마운",
   "신나다", "신나는", "신났다", "흥미롭다", "흥미로운",
   "재미있다", "재미있는", "기대", "기대하다", "기대되다",
   "설레다", "설레는",
   "만족", "만족하다", "만족스럽다", "성공", "성공하다", "성공적",
   "자랑", "자랑스럽다", "자랑스러운", "뿌듯하다", "뿌듯한",
   "보람", "보람있다", "보람찬",
   "훌륭하다", "훌륭한", "멋지다", "멋진", "대단하다", "대단한",
   "최고", "최고의", "완벽하다", "완벽한", "아름답다", "아름다운",
   "따뜻하다", "따뜻한",
   "친절하다", "친절한", "다정하다", "다정한", "반갑다", "반가운",
   "환영", "환영하다"]

/-- `NEGATIVE_EMOTION` from `dictionaries/emotion.py`. -/
def NEGATIVE_EMOTION : List String :=
  ["싫다", "싫은", "싫어", "나쁘다", "나쁜", "슬프다", "슬픈", "슬퍼",
   "힘들다", "힘든", "어렵다", "어려운",
   "불편하다", "불편한", "괴롭다", "괴로운", "고통", "고통스럽다",
   "아프다", "아픈",
   "불만", "불만족", "실망", "실망하다", "실망스럽다", "후회", "후회하다",
   "끔찍하다", "끔찍한", "최악", "최악의", "지루하다", "지루한",
   "짜증", "짜증나다", "짜증스럽다"]

/-- `ANXIETY` from `dictionaries/emotion.py`. -/
def ANXIETY : List String :=
  ["불안", "불안하다", "불안한", "걱정", "걱정하다", "걱정되다", "걱정스럽다",
   "긴장", "긴장하다", "긴장되다", "초조", "초조하다", "초조한",
   "두렵다", "두려운", "두려움", "무섭다", "무서운", "겁나다", "겁나는",
   "스트레스", "스트레스받다", "압박", "압박감", "부담", "부담되다", "부담스럽다",
   "망설이다", "망설여지다", "조마조마", "조마조마하다", "안절부절", "안절부절하다"]

/-- `ANGER` from `dictionaries/emotion.py`. -/
def ANGER : List String :=
  ["화나다", "화난", "화가 나다", "분노", "분노하다",
   "짜증", "짜증나다", "짜증나는", "열받다", "열받는",
   "답답하다", "답답한", "억울하다", "억울한", "속상하다", "속상한",
   "미워하다", "미운", "싫어하다", "증오", "증오하다", "원망", "원망하다",
   "신경질", "신경질나다", "짜증스럽다", "불쾌하다", "불쾌한", "기분나쁘다"]

/-- `SADNESS` from `dictionaries/emotion.py`. -/
def SADNESS : List String :=
  ["슬프다", "슬픈", "슬퍼", "슬픔", "우울", "우울하다", "우울한",
   "쓸쓸하다", "쓸쓸한", "외롭다", "외로운", "외로움",
   "그립다", "그리운", "아쉽다", "아쉬운", "허전하다", "허전한",
   "절망", "절망적", "절망하다", "낙심", "낙심하다", "좌절", "좌절하다",
   "울다", "눈물", "눈물나다", "서럽다", "서러운",
   "쓸쓸", "고독", "고독하다", "고독한"]

/-- `ALL_NEGATIVE_EMOTION = NEGATIVE_EMOTION | ANXIETY | ANGER | SADNESS`
from `dictionaries/emotion.py` (only membership is used downstream, so the
union is embedded as list concatenation). -/
def ALL_NEGATIVE_EMOTION : List String :=
  NEGATIVE_EMOTION ++ ANXIETY ++ ANGER ++ SADNESS

/-! ## Shared numeric helpers (`features/base.py`) -/

/-- `FeatureExtractor._safe_ratio`: `count / total`, or `0.0` when
`total == 0`. -/
def safeRatio (count total : ℚ) : ℚ :=
  if total = 0 then 0 else count / total

/-- `FeatureExtractor._safe_rate`: `count / duration`, or `0.0` when
`duration <= 0`. -/
def safeRate (count duration : ℚ) : ℚ :=
  if duration ≤ 0 then 0 else count / duration

/-- `FeatureExtractor._count_by_pos`: tokens whose tag is in `pos_tags`. -/
def countByPos (tokens : List Token) (posTags : List String) : ℕ :=
  tokens.countP (fun t => posTags.contains t.tag)

/-- The content-token filter shared by every extractor:
`[t for t in tokens if t.tag not in EXCLUDED_TAGS]`. -/
def contentTokens (tokens : List Token) : List Token :=
  tokens.filter (fun t => !EXCLUDED_TAGS.contains t.tag)

/-! ## Speaking-rate extractor (`features/speaking_rate.py`) -/

/-- Output record of `SpeakingRateExtractor.extract`. -/
structure SpeakingRateFeatures where
  wpsec : ℚ
  upsec : ℚ
  fpsec : ℚ
  wc : ℚ
  uc : ℚ
deriving Repr, DecidableEq

/-- The weighted filler sum of `SpeakingRateExtractor.extract`:
`filler_count += weight` for each content token whose filler weight is
positive. -/
def fillerCountLoop (tokens : List Token) : ℚ :=
  tokens.foldl
    (fun acc t =>
      let w := getFillerWeight t.form
      if w > 0 then acc + w else acc) 0

/-- `SpeakingRateExtractor.extract`. -/
def SpeakingRateExtract (tokens : List Token) (duration : ℚ) :
    SpeakingRateFeatures :=
  let content := contentTokens tokens
  let wc := content.length
  let uc := (content.map (·.form)).eraseDups.length
  let fillerCount := fillerCountLoop content
  { wpsec := safeRate wc duration
    upsec := safeRate uc duration
    fpsec := safeRate (pyInt fillerCount) duration
    wc := wc
    uc := uc }

/-! ## Pronoun extractor (`features/pronouns.py`) -/

/-- Output record of `PronounExtractor.extract`. -/
structure PronounFeatures where
  i_ratio : ℚ
  we_ratio : ℚ
  they_ratio : ℚ
deriving Repr, DecidableEq

/-- Per-token decision of the classification loop in
`PronounExtractor.extract`: exact lemma match first (singular, plural,
third-person order), then substring containment for `NP`-tagged tokens. -/
def pronounClass (t : Token) : Option (Fin 3) :=
  if PRONOUNS_I_LEMMAS.contains t.form then some 0
  else if PRONOUNS_WE_LEMMAS.contains t.form then some 1
  else if PRONOUNS_THEY_LEMMAS.contains t.form then some 2
  else if t.tag = "NP" then
    if PRONOUNS_I_LEMMAS.any (fun p => pyContains t.form p) then some 0
    else if PRONOUNS_WE_LEMMAS.any (fun p => pyContains t.form p) then some 1
    else if PRONOUNS_THEY_LEMMAS.any (fun p => pyContains t.form p) then some 2
    else none
  else none

/-- `PronounExtractor.extract`. -/
def PronounExtract (tokens : List Token) (_duration : ℚ) : PronounFeatures :=
  let content := contentTokens tokens
  let total : ℚ := content.length
  { i_ratio := safeRatio (content.countP (fun t => pronounClass t = some 0)) total
    we_ratio := safeRatio (content.countP (fun t => pronounClass t = some 1)) total
    they_ratio := safeRatio (content.countP (fun t => pronounClass t = some 2)) total }

/-! ## POS extractor (`features/pos_features.py`) -/

/-- Output record of `POSFeatureExtractor.extract`. -/
structure POSFeatures where
  article_ratio : ℚ
  verb_ratio : ℚ
  adverb_ratio : ℚ
  preposition_ratio : ℚ
  conjunction_ratio : ℚ
  number_ratio : ℚ
deriving Repr, DecidableEq

/-- `POSFeatureExtractor.extract`. -/
def POSExtract (tokens : List Token) (_duration : ℚ) : POSFeatures :=
  let content := contentTokens tokens
  let total : ℚ := content.length
  { article_ratio := safeRatio (countByPos content ARTICLE_TAGS) total
    verb_ratio := safeRatio (countByPos content VERB_TAGS) total
    adverb_ratio := safeRatio (countByPos content ADVERB_TAGS) total
    preposition_ratio := safeRatio (countByPos content PREPOSITION_TAGS) total
    conjunction_ratio := safeRatio (countByPos content CONJUNCTION_TAGS) total
    number_ratio := safeRatio (countByPos content NUMBER_TAGS) total }

/-! ## Emotion extractor (`features/emotion.py`) -/

/-- Output record of `EmotionExtractor.extract`. -/
structure EmotionFeatures where
  pos_emotion_ratio : ℚ
  neg_emotion_ratio : ℚ
  anxiety_ratio : ℚ
  anger_ratio : ℚ
  sadness_ratio : ℚ
deriving Repr, DecidableEq

/-- `EmotionExtractor._count_emotion_words`: exact match, or — for
verb-like tags — a 2-character stem-prefix match against entries of
length ≥ 2. -/
def countEmotionWords (tokens : List Token) (emotionSet : List String) : ℕ :=
  tokens.countP (fun t =>
    emotionSet.contains t.form ||
      (["VV", "VA", "VX"].contains t.tag &&
        emotionSet.any (fun w =>
          listStarts (pyTakeTwo w) t.form.toList && pyLen w ≥ 2)))

/-- `EmotionExtractor.extract`. -/
def EmotionExtract (tokens : List Token) (_duration : ℚ) : EmotionFeatures :=
  let content := contentTokens tokens
  let total : ℚ := content.length
  { pos_emotion_ratio := safeRatio (countEmotionWords content POSITIVE_EMOTION) total
    neg_emotion_ratio := safeRatio (countEmotionWords content ALL_NEGATIVE_EMOTION) total
    anxiety_ratio := safeRatio (countEmotionWords content ANXIETY) total
    anger_ratio := safeRatio (countEmotionWords content ANGER) total
    sadness_ratio := safeRatio (countEmotionWords content SADNESS) total }

/-! ## Cognitive extractor (`features/cognitive.py`) -/

/-- Output record of `CognitiveExtractor.extract`. -/
structure CognitiveFeatures where
  cognitive_ratio : ℚ
  inhibition_ratio : ℚ
  perceptual_ratio : ℚ
deriving Repr, DecidableEq

/-- `CognitiveExtractor._count_cognitive_words` (same algorithm as the
emotion matcher, duplicated in the source). -/
def countCognitiveWords (tokens : List Token) (wordSet : List String) : ℕ :=
  tokens.countP (fun t =>
    wordSet.contains t.form ||
      (["VV", "VA", "VX"].contains t.tag &&
        wordSet.any (fun w =>
          listStarts (pyTakeTwo w) t.form.toList && pyLen w ≥ 2)))

/-- `CognitiveExtractor.extract`. -/
def CognitiveExtract (tokens : List Token) (_duration : ℚ) : CognitiveFeatures :=
  let content := contentTokens tokens
  let total : ℚ := content.length
  { cognitive_ratio := safeRatio (countCognitiveWords content COGNITIVE) total
    inhibition_ratio := safeRatio (countCognitiveWords content INHIBITION) total
    perceptual_ratio := safeRatio (countCognitiveWords content PERCEPTUAL) total }

/-! ## Miscellaneous extractor (`features/misc.py`) -/

/-- Output record of `MiscFeatureExtractor.extract`. -/
structure MiscFeatures where
  nonfluency_ratio : ℚ
  negation_ratio : ℚ
  quantifier_ratio : ℚ
  work_ratio : ℚ
  relativity_ratio : ℚ
  swear_ratio : ℚ
deriving Repr, DecidableEq

/-- `MiscFeatureExtractor._count_dictionary_words` with `use_partial=True`:
exact match, or mutual-prefix partial match against entries of length ≥ 2. -/
def countDictionaryWords (tokens : List Token) (wordSet : List String) : ℕ :=
  tokens.countP (fun t =>
    wordSet.contains t.form ||
      wordSet.any (fun w =>
        pyLen w ≥ 2 && (pyStartsWith t.form w || pyStartsWith w t.form)))

/-- `MiscFeatureExtractor._count_negations`: dictionary match, or
starts-with / ends-with match against the negation morpheme patterns. -/
def countNegations (tokens : List Token) : ℕ :=
  tokens.countP (fun t =>
    NEGATIONS.contains t.form ||
      NEGATION_PATTERNS.any (fun p =>
        pyStartsWith t.form p || pyEndsWith t.form p))

/-- `MiscFeatureExtractor._count_nonfluency`: the weighted filler sum. -/
def countNonfluency (tokens : List Token) : ℚ :=
  tokens.foldl
    (fun acc t =>
      let w := getFillerWeight t.form
      if w > 0 then acc + w else acc) 0

/-- `MiscFeatureExtractor.extract`. -/
def MiscExtract (tokens : List Token) (_duration : ℚ) : MiscFeatures :=
  let content := contentTokens tokens
  let total : ℚ := content.length
  { nonfluency_ratio := safeRatio (pyInt (countNonfluency content)) total
    negation_ratio := safeRatio (countNegations content) total
    quantifier_ratio := safeRatio (countDictionaryWords content QUANTIFIERS) total
    work_ratio := safeRatio (countDictionaryWords content WORK) total
    relativity_ratio := safeRatio (countDictionaryWords content RELATIVITY) total
    swear_ratio := safeRatio 0 total }

/-! ## Min-Max normalizer (`scoring/normalizer.py`) -/

/-- `FeatureStats` from `scoring/normalizer.py`.  In Python the fields are
seeded with `inf` / `-inf` and a count of 0; a record is only ever created
together with its first `min`/`max` update, which makes both fields equal
to that first value, so the embedding stores the already-updated record. -/
structure FeatureStats where
  min_val : ℚ
  max_val : ℚ
  count : ℕ
deriving Repr, DecidableEq

/-- One `stats.min_val/max_val/count` update of `MinMaxNormalizer.fit`,
on the insertion-ordered association list of per-feature stats. -/
def updateStat : List (String × FeatureStats) → String → ℚ → List (String × FeatureStats)
  | [], name, v => [(name, ⟨v, v, 1⟩)]
  | (n, s) :: rest, name, v =>
    if n = name then (n, ⟨min s.min_val v, max s.max_val v, s.count + 1⟩) :: rest
    else (n, s) :: updateStat rest name v

/-- `MinMaxNormalizer` (fields `_preset_ranges`, `_stats`, `_is_fitted`). -/
structure MinMaxNormalizer where
  presetRanges : List (String × ℚ × ℚ)
  stats : List (String × FeatureStats)
  isFitted : Bool

/-- `MinMaxNormalizer.__init__`: `_is_fitted = bool(preset_ranges)`, so a
missing argument and an empty mapping both leave the normalizer unfitted. -/
def MinMaxInit (preset : Option (List (String × ℚ × ℚ))) : MinMaxNormalizer :=
  { presetRanges := preset.getD []
    stats := []
    isFitted := !(preset.getD []).isEmpty }

/-- `MinMaxNormalizer.fit`: clears the stats, then folds every
`(name, value)` pair of every mapping in the batch through `updateStat`,
and marks the normalizer fitted (even on an empty batch). -/
def MinMaxFit (n : MinMaxNormalizer) (featuresList : List (List (String × ℚ))) :
    MinMaxNormalizer :=
  { n with
    stats := featuresList.foldl
      (fun acc features => features.foldl (fun acc p => updateStat acc p.1 p.2) acc) []
    isFitted := true }

/-- The per-value body of `MinMaxNormalizer.transform`: normalize to
`[0, 1]` when the range is positive, `0.5` on a degenerate range, then
clip to `[0, 1]`. -/
def minmaxScale (min_val max_val value : ℚ) : ℚ :=
  let range_val := max_val - min_val
  let normalized := if range_val > 0 then (value - min_val) / range_val else 0.5
  max 0 (min 1 normalized)

/-- Per-feature dispatch of `MinMaxNormalizer.transform`: preset range
first, then fitted stats, else pass the value through unchanged. -/
def MinMaxTransformValue (n : MinMaxNormalizer) (name : String) (value : ℚ) : ℚ :=
  match n.presetRanges.lookup name with
  | some r => minmaxScale r.1 r.2 value
  | none =>
    match n.stats.lookup name with
    | some s => minmaxScale s.min_val s.max_val value
    | none => value

/-- The `RuntimeError` message of both normalizers' `transform`. -/
def notFittedMessage (hint : String) : String :=
  "Normalizer must be fitted before transforming. Call fit() first or provide " ++ hint ++ "."

/-- `MinMaxNormalizer.transform`: raises when unfitted, otherwise maps
every entry through `MinMaxTransformValue` keeping the key order. -/
def MinMaxTransform (n : MinMaxNormalizer) (features : List (String × ℚ)) :
    Except String (List (String × ℚ)) :=
  if !n.isFitted then .error (notFittedMessage "preset_ranges")
  else .ok (features.map (fun p => (p.1, MinMaxTransformValue n p.1 p.2)))

/-! ## Z-Score normalizer (`scoring/normalizer.py`) -/

/-- `ZScoreStats` from `scoring/normalizer.py`. -/
structure ZScoreStats where
  mean : ℝ
  std : ℝ
  count : ℕ

/-- `ZScoreNormalizer` (field `_stats`; `__init__` converts the preset
mapping into `ZScoreStats` records, so `_stats` is all `transform` uses). -/
structure ZScoreNormalizer where
  stats : List (String × ZScoreStats)
  isFitted : Bool

/-- `ZScoreNormalizer.__init__`: `_is_fitted = bool(preset_stats)`. -/
def ZScoreInit (preset : Option (List (String × ZScoreStats))) : ZScoreNormalizer :=
  { stats := preset.getD []
    isFitted := !(preset.getD []).isEmpty }

/-- The per-feature value collection of `ZScoreNormalizer.fit`: append the
value to the feature's list, creating the entry on first sight (this is the
insertion-ordered `feature_values` dictionary). -/
def addValue : List (String × List ℝ) → String → ℝ → List (String × List ℝ)
  | [], name, v => [(name, [v])]
  | (n, vs) :: rest, name, v =>
    if n = name then (n, vs ++ [v]) :: rest
    else (n, vs) :: addValue rest name v

/-- The first pass of `ZScoreNormalizer.fit`: all values per feature. -/
def collectValues (featuresList : List (List (String × ℝ))) : List (String × List ℝ) :=
  featuresList.foldl
    (fun acc features => features.foldl (fun acc p => addValue acc p.1 p.2) acc) []

/-- `ZScoreNormalizer.fit`: an empty batch returns the normalizer
unchanged (and in particular still unfitted); otherwise two-pass mean and
sample variance (denominator `max(n-1, 1)`), with a standard deviation of
`0` replaced by `1.0` before storing. -/
noncomputable def ZScoreFit (n : ZScoreNormalizer)
    (featuresList : List (List (String × ℝ))) : ZScoreNormalizer :=
  if featuresList.isEmpty then n
  else
    { stats := (collectValues featuresList).map (fun p =>
        let values := p.2
        let k : ℕ := values.length
        let mean := values.sum / (k : ℝ)
        let variance := (values.map (fun v => (v - mean) ^ 2)).sum / ((max (k - 1) 1 : ℕ) : ℝ)
        let std := Real.sqrt variance
        (p.1, ⟨mean, if std > 0 then std else 1, k⟩))
      isFitted := true }

/-- `ZScoreNormalizer.transform`: raises when unfitted; a known feature is
standardized when its stored `std` is positive and mapped to `0.0`
otherwise; unknown features pass through unchanged. -/
noncomputable def ZScoreTransform (n : ZScoreNormalizer) (features : List (String × ℝ)) :
    Except String (List (String × ℝ)) :=
  if !n.isFitted then .error (notFittedMessage "preset_stats")
  else .ok (features.map (fun p =>
    (p.1,
      match n.stats.lookup p.1 with
      | some s => if s.std > 0 then (p.2 - s.mean) / s.std else 0
      | none => p.2)))

/-! ## Trait weights (`scoring/weights.py`) -/

/-- `TRAIT_NAMES` from `scoring/weights.py`. -/
def TRAIT_NAMES : List String :=
  ["overall", "recommend_hiring", "excited", "engagement", "friendliness"]

/-- `FEATURE_WEIGHTS` from `scoring/weights.py` (Table 6 of Naim et al.
2018, Tier-1 features only; every other feature has weight `0`). -/
def FEATURE_WEIGHTS : List (String × List (String × ℚ)) :=
  [("overall",
    [("wpsec", 0.11), ("upsec", 0.093), ("fpsec", -0.086), ("wc", 0), ("uc", 0),
     ("i_ratio", 0), ("we_ratio", 0), ("they_ratio", 0),
     ("article_ratio", 0), ("verb_ratio", 0), ("adverb_ratio", 0),
     ("preposition_ratio", 0), ("conjunction_ratio", 0), ("number_ratio", 0),
     ("pos_emotion_ratio", 0), ("neg_emotion_ratio", 0), ("anxiety_ratio", 0),
     ("anger_ratio", 0), ("sadness_ratio", 0),
     ("cognitive_ratio", 0), ("inhibition_ratio", 0), ("perceptual_ratio", 0),
     ("nonfluency_ratio", 0), ("negation_ratio", 0), ("quantifier_ratio", 0.086),
     ("work_ratio", 0), ("relativity_ratio", 0), ("swear_ratio", 0)]),
   ("recommend_hiring",
    [("wpsec", 0.139), ("upsec", 0.098), ("fpsec", -0.130), ("wc", 0), ("uc", 0),
     ("i_ratio", 0), ("we_ratio", 0), ("they_ratio", 0),
     ("article_ratio", 0), ("verb_ratio", 0), ("adverb_ratio", 0),
     ("preposition_ratio", 0), ("conjunction_ratio", 0), ("number_ratio", 0),
     ("pos_emotion_ratio", 0), ("neg_emotion_ratio", 0), ("anxiety_ratio", 0),
     ("anger_ratio", 0), ("sadness_ratio", 0),
     ("cognitive_ratio", 0), ("inhibition_ratio", 0), ("perceptual_ratio", 0),
     ("nonfluency_ratio", 0), ("negation_ratio", 0), ("quantifier_ratio", 0.109),
     ("work_ratio", 0), ("relativity_ratio", 0), ("swear_ratio", 0)]),
   ("excited",
    [("wpsec", 0.123), ("upsec", 0.077), ("fpsec", -0.069), ("wc", 0), ("uc", 0),
     ("i_ratio", 0), ("we_ratio", 0), ("they_ratio", 0),
     ("article_ratio", 0), ("verb_ratio", 0), ("adverb_ratio", 0),
     ("preposition_ratio", 0), ("conjunction_ratio", 0), ("number_ratio", 0),
     ("pos_emotion_ratio", 0), ("neg_emotion_ratio", 0), ("anxiety_ratio", 0),
     ("anger_ratio", 0), ("sadness_ratio", 0),
     ("cognitive_ratio", 0), ("inhibition_ratio", 0), ("perceptual_ratio", 0),
     ("nonfluency_ratio", 0), ("negation_ratio", 0), ("quantifier_ratio", 0.068),
     ("work_ratio", 0), ("relativity_ratio", 0), ("swear_ratio", 0)]),
   ("engagement",
    [("wpsec", 0.135), ("upsec", 0.097), ("fpsec", -0.077), ("wc", 0), ("uc", 0),
     ("i_ratio", 0), ("we_ratio", 0), ("they_ratio", 0),
     ("article_ratio", 0), ("verb_ratio", 0), ("adverb_ratio", 0),
     ("preposition_ratio", 0), ("conjunction_ratio", 0), ("number_ratio", 0),
     ("pos_emotion_ratio", 0), ("neg_emotion_ratio", 0), ("anxiety_ratio", 0),
     ("anger_ratio", 0), ("sadness_ratio", 0),
     ("cognitive_ratio", 0), ("inhibition_ratio", 0), ("perceptual_ratio", 0),
     ("nonfluency_ratio", 0), ("negation_ratio", 0), ("quantifier_ratio", 0.075),
     ("work_ratio", 0), ("relativity_ratio", 0), ("swear_ratio", 0)]),
   ("friendliness",
    [("wpsec", 0.089), ("upsec", 0.073), ("fpsec", -0.063), ("wc", 0), ("uc", 0),
     ("i_ratio", 0), ("we_ratio", 0), ("they_ratio", 0),
     ("article_ratio", 0), ("verb_ratio", 0), ("adverb_ratio", 0),
     ("preposition_ratio", 0), ("conjunction_ratio", 0), ("number_ratio", 0),
     ("pos_emotion_ratio", 0), ("neg_emotion_ratio", 0), ("anxiety_ratio", 0),
     ("anger_ratio", 0), ("sadness_ratio", 0),
     ("cognitive_ratio", 0), ("inhibition_ratio", 0), ("perceptual_ratio", 0),
     ("nonfluency_ratio", 0), ("negation_ratio", 0), ("quantifier_ratio", 0.061),
     ("work_ratio", 0), ("relativity_ratio", 0), ("swear_ratio", 0)])]

/-- The `ValueError` message of `get_trait_weights`. -/
def unknownTraitMessage (trait : String) : String :=
  "Unknown trait '" ++ trait ++ "'. Must be one of: " ++ String.intercalate ", " TRAIT_NAMES

/-- `get_trait_weights` from `scoring/weights.py`: the trait's weight
table, or a `ValueError` enumerating `TRAIT_NAMES` for an unknown trait. -/
def getTraitWeights (trait : String) : Except String (List (String × ℚ)) :=
  match FEATURE_WEIGHTS.lookup trait with
  | some w => .ok w
  | none => .error (unknownTraitMessage trait)

/-! ## Scorer (`scoring/scorer.py`) -/

/-- `DEFAULT_FEATURE_RANGES` from `scoring/normalizer.py`. -/
def DEFAULT_FEATURE_RANGES : List (String × ℚ × ℚ) :=
  [("wpsec", 0, 5), ("upsec", 0, 3), ("fpsec", 0, 0.5),
   ("wc", 0, 2000), ("uc", 0, 500),
   ("i_ratio", 0, 0.15), ("we_ratio", 0, 0.10), ("they_ratio", 0, 0.05),
   ("article_ratio", 0, 0.10), ("verb_ratio", 0, 0.40), ("adverb_ratio", 0, 0.15),
   ("preposition_ratio", 0, 0.15), ("conjunction_ratio", 0, 0.08),
   ("number_ratio", 0, 0.05),
   ("pos_emotion_ratio", 0, 0.10), ("neg_emotion_ratio", 0, 0.05),
   ("anxiety_ratio", 0, 0.03), ("anger_ratio", 0, 0.02), ("sadness_ratio", 0, 0.02),
   ("cognitive_ratio", 0, 0.15), ("inhibition_ratio", 0, 0.05),
   ("perceptual_ratio", 0, 0.10),
   ("nonfluency_ratio", 0, 0.10), ("negation_ratio", 0, 0.08),
   ("quantifier_ratio", 0, 0.10), ("work_ratio", 0, 0.15),
   ("relativity_ratio", 0, 0.12), ("swear_ratio", 0, 0.01)]

/-- `InterviewScorer` (fields `normalizer`, `weights`). -/
structure InterviewScorer where
  normalizer : MinMaxNormalizer
  weights : List (String × List (String × ℚ))

/-- `InterviewScorer.__init__` with no arguments: the default Min-Max
normalizer over `DEFAULT_FEATURE_RANGES` and the paper weight tables. -/
def defaultScorer : InterviewScorer :=
  { normalizer := MinMaxInit (some DEFAULT_FEATURE_RANGES)
    weights := FEATURE_WEIGHTS }

/-- `InterviewScorer._compute_trait_score`: `weights = self.weights.get(trait, {})`,
then `score += weights[feature] * value` for every feature of the mapping
that has an entry in the trait's table. -/
def computeTraitScore (scorer : InterviewScorer)
    (normalizedFeatures : List (String × ℚ)) (trait : String) : ℚ :=
  let weights := (scorer.weights.lookup trait).getD []
  normalizedFeatures.foldl
    (fun score p =>
      match weights.lookup p.1 with
      | some w => score + w * p.2
      | none => score) 0

/-- `InterviewScorer._scale_score`: the sigmoid
`1 / (1 + exp(-raw * 3.0)) * 100`. -/
noncomputable def scaleScore (rawScore : ℚ) : ℝ :=
  1 / (1 + Real.exp (-(rawScore : ℝ) * 3)) * 100

/-- `InterviewScore` from `models/scores.py`: the five trait scores. -/
structure InterviewScore where
  overall : ℝ
  recommend_hiring : ℝ
  excited : ℝ
  engagement : ℝ
  friendliness : ℝ

/-- `InterviewScorer.score`: optionally normalize, then compute and scale
each of the five trait scores.  A `RuntimeError` from the normalizer
propagates. -/
noncomputable def scorerScore (scorer : InterviewScorer)
    (features : List (String × ℚ)) (normalize : Bool) :
    Except String InterviewScore :=
  match (if normalize then MinMaxTransform scorer.normalizer features
         else .ok features) with
  | .error e => .error e
  | .ok normalized =>
    .ok
      { overall := scaleScore (computeTraitScore scorer normalized "overall")
        recommend_hiring := scaleScore (computeTraitScore scorer normalized "recommend_hiring")
        excited := scaleScore (computeTraitScore scorer normalized "excited")
        engagement := scaleScore (computeTraitScore scorer normalized "engagement")
        friendliness := scaleScore (computeTraitScore scorer normalized "friendliness") }

/-! ## Helper lemmas about lookups, ratios and the sigmoid -/

/-- Every value an association-list lookup can return satisfies any
property satisfied by all stored values. -/
lemma lookup_forall {β : Type} (P : β → Prop) (l : List (String × β))
    (h : ∀ p ∈ l, P p.2) (a : String) (b : β) (hb : l.lookup a = some b) :
    P b := by
  induction l with
  | nil => simp [List.lookup] at hb
  | cons p rest ih =>
    obtain ⟨k, v⟩ := p
    rw [List.lookup] at hb
    cases hk : (a == k) with
    | true =>
      rw [hk] at hb
      exact Option.some_injective _ hb ▸ h (k, v) (by simp)
    | false =>
      rw [hk] at hb
      exact ih (fun q hq => h q (by simp [hq])) hb

/-- A lookup for a key absent from the key list returns `none`. -/
lemma lookup_none_of_not_mem {β : Type} (l : List (String × β)) (a : String)
    (h : a ∉ l.map Prod.fst) : l.lookup a = none := by
  induction l with
  | nil => rfl
  | cons p rest ih =>
    obtain ⟨k, v⟩ := p
    rw [List.lookup]
    have hk : (a == k) = false := by
      simp only [List.map_cons, List.mem_cons] at h
      exact beq_false_of_ne (fun hka => h (Or.inl hka))
    rw [hk]
    exact ih (fun hm => h (by simp [List.map_cons, hm]))

lemma safeRatio_nonneg {c t : ℚ} (hc : 0 ≤ c) (ht : 0 ≤ t) :
    0 ≤ safeRatio c t := by
  unfold safeRatio
  split
  · exact le_refl 0
  · exact div_nonneg hc ht

lemma safeRatio_le_one {c t : ℚ} (hct : c ≤ t) (ht : 0 ≤ t) :
    safeRatio c t ≤ 1 := by
  unfold safeRatio
  split
  · exact zero_le_one
  · next h => exact (div_le_one (lt_of_le_of_ne ht (Ne.symm h))).2 hct

lemma safeRatio_zero_total (c : ℚ) : safeRatio c 0 = 0 := by
  unfold safeRatio
  simp

lemma safeRate_nonneg {c d : ℚ} (hc : 0 ≤ c) : 0 ≤ safeRate c d := by
  unfold safeRate
  split
  · exact le_refl 0
  · next h => exact div_nonneg hc (le_of_lt (lt_of_not_le h))

lemma safeRate_zero_duration (c : ℚ) : safeRate c 0 = 0 := by
  unfold safeRate
  simp

lemma getFillerWeight_nonneg (s : String) : 0 ≤ getFillerWeight s := by
  unfold getFillerWeight
  cases hb : FILLERS.lookup s with
  | none => simp
  | some w =>
    simpa using lookup_forall (fun w => 0 ≤ w) FILLERS (by norm_num [FILLERS]) s w hb

lemma getFillerWeight_le_one (s : String) : getFillerWeight s ≤ 1 := by
  unfold getFillerWeight
  cases hb : FILLERS.lookup s with
  | none => simp
  | some w =>
    simpa using lookup_forall (fun w => w ≤ 1) FILLERS (by norm_num [FILLERS]) s w hb

/-- The per-token contribution of the weighted filler loop. -/
def fillerContrib (t : Token) : ℚ :=
  if getFillerWeight t.form > 0 then getFillerWeight t.form else 0

lemma fillerContrib_nonneg (t : Token) : 0 ≤ fillerContrib t := by
  unfold fillerContrib
  split
  · exact getFillerWeight_nonneg t.form
  · exact le_refl 0

lemma fillerContrib_le_one (t : Token) : fillerContrib t ≤ 1 := by
  unfold fillerContrib
  split
  · exact getFillerWeight_le_one t.form
  · exact zero_le_one

/-- The two identical filler-sum loops are one function. -/
lemma countNonfluency_eq_fillerCountLoop : countNonfluency = fillerCountLoop := rfl

lemma countNonfluency_eq_sum (ts : List Token) :
    countNonfluency ts = (ts.map fillerContrib).sum := by
  suffices h : ∀ (l : List Token) (acc : ℚ),
      l.foldl (fun acc t =>
        let w := getFillerWeight t.form
        if w > 0 then acc + w else acc) acc = acc + (l.map fillerContrib).sum by
    simpa [countNonfluency] using h ts 0
  intro l
  induction l with
  | nil => intro acc; simp
  | cons t rest ih =>
    intro acc
    rw [List.foldl_cons, ih]
    simp only [List.map_cons, List.sum_cons, fillerContrib]
    split <;> ring

lemma countNonfluency_nonneg (ts : List Token) : 0 ≤ countNonfluency ts := by
  rw [countNonfluency_eq_sum]
  exact List.sum_nonneg (by
    intro x hx
    obtain ⟨t, _, rfl⟩ := List.mem_map.1 hx
    exact fillerContrib_nonneg t)

lemma countNonfluency_le_length (ts : List Token) :
    countNonfluency ts ≤ (ts.length : ℚ) := by
  rw [countNonfluency_eq_sum]
  calc (ts.map fillerContrib).sum ≤ (ts.map fillerContrib).length • (1 : ℚ) := by
        refine List.sum_le_card_nsmul _ _ ?_
        intro x hx
        obtain ⟨t, _, rfl⟩ := List.mem_map.1 hx
        exact fillerContrib_le_one t
    _ = (ts.length : ℚ) := by simp

lemma pyInt_of_nonneg {q : ℚ} (h : 0 ≤ q) : pyInt q = ⌊q⌋ := if_pos h

lemma pyInt_nonneg {q : ℚ} (h : 0 ≤ q) : 0 ≤ pyInt q := by
  rw [pyInt_of_nonneg h]
  exact Int.floor_nonneg.2 h

lemma pyInt_cast_le {q u : ℚ} (hq : 0 ≤ q) (h : q ≤ u) : (pyInt q : ℚ) ≤ u := by
  rw [pyInt_of_nonneg hq]
  exact (Int.floor_le q).trans h

lemma scaleScore_pos (q : ℚ) : 0 < scaleScore q := by
  unfold scaleScore
  have h := Real.exp_pos (-(q : ℝ) * 3)
  positivity

lemma scaleScore_lt_100 (q : ℚ) : scaleScore q < 100 := by
  unfold scaleScore
  have h := Real.exp_pos (-(q : ℝ) * 3)
  have h1 : 1 / (1 + Real.exp (-(q : ℝ) * 3)) < 1 := by
    rw [div_lt_one (by positivity)]
    linarith
  calc 1 / (1 + Real.exp (-(q : ℝ) * 3)) * 100 < 1 * 100 := by
        exact mul_lt_mul_of_pos_right h1 (by norm_num)
    _ = 100 := one_mul 100

lemma scaleScore_zero : scaleScore 0 = 50 := by
  unfold scaleScore
  norm_num [Real.exp_zero]

lemma scaleScore_mono {q r : ℚ} (h : q ≤ r) : scaleScore q ≤ scaleScore r := by
  unfold scaleScore
  have hqr : (q : ℝ) ≤ (r : ℝ) := Rat.cast_le.2 h
  have he : Real.exp (-(r : ℝ) * 3) ≤ Real.exp (-(q : ℝ) * 3) :=
    Real.exp_le_exp.2 (by linarith)
  have hp : (0 : ℝ) < 1 + Real.exp (-(r : ℝ) * 3) := by positivity
  have h1 : 1 / (1 + Real.exp (-(q : ℝ) * 3)) ≤ 1 / (1 + Real.exp (-(r : ℝ) * 3)) :=
    one_div_le_one_div_of_le hp (by linarith)
  exact mul_le_mul_of_nonneg_right h1 (by norm_num)

/-! ## Helper lemmas about the scorer -/

/-- The weight the scorer attaches to a feature for a trait (`0` when the
trait table has no entry for that feature). -/
def traitWeight (scorer : InterviewScorer) (trait f : String) : ℚ :=
  (((scorer.weights.lookup trait).getD []).lookup f).getD 0

lemma computeTraitScore_eq_sum (scorer : InterviewScorer)
    (features : List (String × ℚ)) (trait : String) :
    computeTraitScore scorer features trait
      = (features.map (fun p => traitWeight scorer trait p.1 * p.2)).sum := by
  unfold computeTraitScore traitWeight
  generalize (scorer.weights.lookup trait).getD [] = W
  suffices h : ∀ (l : List (String × ℚ)) (acc : ℚ),
      l.foldl (fun score p =>
        match W.lookup p.1 with
        | some w => score + w * p.2
        | none => score) acc
        = acc + (l.map (fun p => (W.lookup p.1).getD 0 * p.2)).sum by
    simpa using h features 0
  intro l
  induction l with
  | nil => intro acc; simp
  | cons p rest ih =>
    intro acc
    rw [List.foldl_cons]
    cases h : W.lookup p.1 <;> simp [h, ih, add_assoc]

/-- What `transform` of the default scorer's normalizer does to one value. -/
def defaultNormalize (name : String) (value : ℚ) : ℚ :=
  MinMaxTransformValue defaultScorer.normalizer name value

/-- The features the trait sums are taken over, in both normalization
modes of `InterviewScorer.score`. -/
def normIf (normalize : Bool) (features : List (String × ℚ)) : List (String × ℚ) :=
  if normalize then features.map (fun p => (p.1, defaultNormalize p.1 p.2)) else features

/-- The default scorer's `score` never raises: its preset-range normalizer
is always fitted, so both normalization modes return a full score record. -/
lemma scorerScore_default_eq (features : List (String × ℚ)) (normalize : Bool) :
    scorerScore defaultScorer features normalize = .ok
      { overall := scaleScore (computeTraitScore defaultScorer (normIf normalize features) "overall")
        recommend_hiring := scaleScore (computeTraitScore defaultScorer (normIf normalize features) "recommend_hiring")
        excited := scaleScore (computeTraitScore defaultScorer (normIf normalize features) "excited")
        engagement := scaleScore (computeTraitScore defaultScorer (normIf normalize features) "engagement")
        friendliness := scaleScore (computeTraitScore defaultScorer (normIf normalize features) "friendliness") } := by
  cases normalize <;> rfl

/-! ## C1 -/

/-- C1: for every feature mapping (embedded as exact rationals standing
for finite floats) and either normalization mode, the default scorer's
`score` returns — never raises — and every one of the five trait scores is
strictly between 0 and 100. -/
theorem C1_scores_strictly_between_0_and_100
    (features : List (String × ℚ)) (normalize : Bool) :
    ∃ s : InterviewScore,
      scorerScore defaultScorer features normalize = .ok s ∧
      0 < s.overall ∧ s.overall < 100 ∧
      0 < s.recommend_hiring ∧ s.recommend_hiring < 100 ∧
      0 < s.excited ∧ s.excited < 100 ∧
      0 < s.engagement ∧ s.engagement < 100 ∧
      0 < s.friendliness ∧ s.friendliness < 100 :=
  ⟨_, scorerScore_default_eq features normalize,
    scaleScore_pos _, scaleScore_lt_100 _,
    scaleScore_pos _, scaleScore_lt_100 _,
    scaleScore_pos _, scaleScore_lt_100 _,
    scaleScore_pos _, scaleScore_lt_100 _,
    scaleScore_pos _, scaleScore_lt_100 _⟩

/-! ## C2 -/

lemma listContains_append_right (n b : List Char) (a : List Char)
    (h : listContains n b = true) : listContains n (a ++ b) = true := by
  induction a with
  | nil => simpa using h
  | cons c rest ih =>
    rw [List.cons_append, listContains]
    simp [ih]

/-- The unknown-trait error message contains every valid trait name. -/
lemma unknownTraitMessage_enumerates (trait : String) :
    ∀ t ∈ TRAIT_NAMES, pyContains (unknownTraitMessage trait) t = true := by
  intro t ht
  unfold pyContains unknownTraitMessage
  rw [show ("Unknown trait '" ++ trait ++ "'. Must be one of: " ++
        String.intercalate ", " TRAIT_NAMES).toList
      = ("Unknown trait '" ++ trait ++ "'. Must be one of: ").toList ++
        (String.intercalate ", " TRAIT_NAMES).toList from String.data_append _ _]
  apply listContains_append_right
  fin_cases ht <;> decide

/-- The key list of the weight tables is exactly the five trait names. -/
lemma featureWeights_keys : FEATURE_WEIGHTS.map Prod.fst = TRAIT_NAMES := rfl

/-- C2: looking up the weights for a trait outside the five fixed traits
returns the configuration error whose message contains every valid trait
name; a valid trait succeeds; and the scorer itself has no other error
path (its `score` always returns a result). -/
theorem C2_unknown_trait_config_error :
    (∀ trait : String, trait ∉ TRAIT_NAMES →
        getTraitWeights trait = .error (unknownTraitMessage trait) ∧
        ∀ t ∈ TRAIT_NAMES, pyContains (unknownTraitMessage trait) t = true) ∧
    (∀ trait ∈ TRAIT_NAMES, ∃ w, getTraitWeights trait = .ok w) ∧
    (∀ (features : List (String × ℚ)) (normalize : Bool),
        ∃ s, scorerScore defaultScorer features normalize = .ok s) := by
  refine ⟨?_, ?_, ?_⟩
  · intro trait h
    have hk : FEATURE_WEIGHTS.lookup trait = none := by
      apply lookup_none_of_not_mem
      rw [featureWeights_keys]
      exact h
    constructor
    · unfold getTraitWeights
      rw [hk]
    · exact unknownTraitMessage_enumerates trait
  · intro trait ht
    fin_cases ht <;> exact ⟨_, rfl⟩
  · intro features normalize
    exact ⟨_, scorerScore_default_eq features normalize⟩

/-- Witness for C2 at the concrete unknown trait `"tone"`. -/
theorem C2_witness :
    (getTraitWeights "tone" = .error (unknownTraitMessage "tone") ∧
      ∀ t ∈ TRAIT_NAMES, pyContains (unknownTraitMessage "tone") t = true) ∧
    (∃ w, getTraitWeights "overall" = .ok w) ∧
    (∃ s, scorerScore defaultScorer [("wpsec", 1)] true = .ok s) :=
  ⟨C2_unknown_trait_config_error.1 "tone" (by decide),
   C2_unknown_trait_config_error.2.1 "overall" (by decide),
   C2_unknown_trait_config_error.2.2 [("wpsec", 1)] true⟩

/-! ## Helper lemmas about the min-max scaling formula -/

lemma minmaxScale_at_lo {lo hi : ℚ} (h : lo < hi) : minmaxScale lo hi lo = 0 := by
  unfold minmaxScale
  dsimp only
  rw [if_pos (by linarith : hi - lo > 0)]
  norm_num

lemma minmaxScale_at_hi {lo hi : ℚ} (h : lo < hi) : minmaxScale lo hi hi = 1 := by
  unfold minmaxScale
  dsimp only
  have hr : hi - lo > 0 := by linarith
  rw [if_pos hr, div_self (ne_of_gt hr)]
  norm_num

lemma minmaxScale_below {lo hi v : ℚ} (h : lo < hi) (hv : v ≤ lo) :
    minmaxScale lo hi v = 0 := by
  unfold minmaxScale
  dsimp only
  have hr : hi - lo > 0 := by linarith
  rw [if_pos hr]
  have hn : (v - lo) / (hi - lo) ≤ 0 :=
    div_nonpos_of_nonpos_of_nonneg (by linarith) (le_of_lt hr)
  rw [min_eq_right (hn.trans zero_le_one), max_eq_left hn]

lemma minmaxScale_above {lo hi v : ℚ} (h : lo < hi) (hv : hi ≤ v) :
    minmaxScale lo hi v = 1 := by
  unfold minmaxScale
  dsimp only
  have hr : hi - lo > 0 := by linarith
  rw [if_pos hr]
  have hn : 1 ≤ (v - lo) / (hi - lo) := (le_div_iff₀ hr).2 (by linarith)
  rw [min_eq_left hn, max_eq_right zero_le_one]

lemma minmaxScale_degenerate {lo hi : ℚ} (h : ¬(hi - lo > 0)) (v : ℚ) :
    minmaxScale lo hi v = 0.5 := by
  unfold minmaxScale
  dsimp only
  rw [if_neg h]
  norm_num

lemma minmaxScale_mono {lo hi v w : ℚ} (hvw : v ≤ w) :
    minmaxScale lo hi v ≤ minmaxScale lo hi w := by
  unfold minmaxScale
  dsimp only
  by_cases hr : hi - lo > 0
  · rw [if_pos hr, if_pos hr]
    exact max_le_max le_rfl
      (min_le_min le_rfl ((div_le_div_iff_of_pos_right hr).2 (by linarith)))
  · rw [if_neg hr, if_neg hr]

/-- The (min, max) range a Min-Max normalizer uses for a feature name:
the preset range when present, else the fitted range, else none. -/
def rangeFor (n : MinMaxNormalizer) (name : String) : Option (ℚ × ℚ) :=
  match n.presetRanges.lookup name with
  | some r => some r
  | none => (n.stats.lookup name).map (fun s => (s.min_val, s.max_val))

lemma MinMaxTransformValue_eq (n : MinMaxNormalizer) (name : String) (v : ℚ) :
    MinMaxTransformValue n name v =
      match rangeFor n name with
      | some r => minmaxScale r.1 r.2 v
      | none => v := by
  unfold MinMaxTransformValue rangeFor
  cases n.presetRanges.lookup name with
  | some r => rfl
  | none =>
    cases n.stats.lookup name with
    | some s => rfl
    | none => rfl

lemma MinMaxTransformValue_mono (n : MinMaxNormalizer) (name : String)
    {v w : ℚ} (hvw : v ≤ w) :
    MinMaxTransformValue n name v ≤ MinMaxTransformValue n name w := by
  rw [MinMaxTransformValue_eq, MinMaxTransformValue_eq]
  cases rangeFor n name with
  | some r => exact minmaxScale_mono hvw
  | none => exact hvw

/-! ## C4 -/

/-- C4: for a fitted-or-preset Min-Max normalizer, `transform` maps every
entry independently; a feature whose range `(lo, hi)` has `lo < hi` is
mapped with `lo ↦ 0`, `hi ↦ 1` and clamping on both sides; a degenerate
range (`lo = hi`) always yields exactly `0.5`; and a feature with no range
passes through unchanged. -/
theorem C4_minmax_transform_clamps (n : MinMaxNormalizer) (hf : n.isFitted = true) :
    (∀ features, MinMaxTransform n features =
      .ok (features.map (fun p => (p.1, MinMaxTransformValue n p.1 p.2)))) ∧
    (∀ name lo hi, rangeFor n name = some (lo, hi) →
      (lo < hi →
        MinMaxTransformValue n name lo = 0 ∧
        MinMaxTransformValue n name hi = 1 ∧
        (∀ v, v ≤ lo → MinMaxTransformValue n name v = 0) ∧
        (∀ v, hi ≤ v → MinMaxTransformValue n name v = 1)) ∧
      (lo = hi → ∀ v, MinMaxTransformValue n name v = 0.5)) ∧
    (∀ name v, rangeFor n name = none → MinMaxTransformValue n name v = v) := by
  refine ⟨?_, ?_, ?_⟩
  · intro features
    unfold MinMaxTransform
    rw [hf]
    rfl
  · intro name lo hi hr
    constructor
    · intro hlt
      refine ⟨?_, ?_, ?_, ?_⟩
      · rw [MinMaxTransformValue_eq, hr]; exact minmaxScale_at_lo hlt
      · rw [MinMaxTransformValue_eq, hr]; exact minmaxScale_at_hi hlt
      · intro v hv; rw [MinMaxTransformValue_eq, hr]; exact minmaxScale_below hlt hv
      · intro v hv; rw [MinMaxTransformValue_eq, hr]; exact minmaxScale_above hlt hv
    · intro heq v
      rw [MinMaxTransformValue_eq, hr]
      exact minmaxScale_degenerate (by rw [heq]; simp) v
  · intro name v hr
    rw [MinMaxTransformValue_eq, hr]

/-- Witness for C4 on a concrete normalizer with a proper range `(0, 2)`
for `"a"`, a degenerate range `(3, 3)` for `"b"`, and no range for `"c"`. -/
theorem C4_witness :
    (MinMaxTransform (MinMaxInit (some [("a", 0, 2), ("b", 3, 3)]))
        [("a", -1), ("a", 0), ("a", 2), ("a", 5), ("b", 7), ("c", 9)] =
      .ok [("a", 0), ("a", 0), ("a", 1), ("a", 1), ("b", 0.5), ("c", 9)]) := by
  have h := C4_minmax_transform_clamps (MinMaxInit (some [("a", 0, 2), ("b", 3, 3)])) rfl
  rw [h.1]
  have ha := h.2.1 "a" 0 2 rfl
  have hb := h.2.1 "b" 3 3 rfl
  have hc := h.2.2 "c"
  have h2 : (0:ℚ) < 2 := by norm_num
  simp only [List.map_cons, List.map_nil]
  rw [(ha.1 h2).2.2.1 (-1) (by norm_num), (ha.1 h2).1, (ha.1 h2).2.1,
    (ha.1 h2).2.2.2 5 (by norm_num), hb.2 rfl 7, hc 9 rfl]

/-! ## C9 -/

/-- C9: for both normalizer strategies, calling `transform` before `fit`
and without preset parameters returns the configuration error (it is the
function's result, not silently recovered). -/
theorem C9_transform_before_fit_errors :
    (∀ features : List (String × ℚ),
      MinMaxTransform (MinMaxInit none) features =
        .error (notFittedMessage "preset_ranges")) ∧
    (∀ features : List (String × ℝ),
      ZScoreTransform (ZScoreInit none) features =
        .error (notFittedMessage "preset_stats")) :=
  ⟨fun _ => rfl, fun _ => rfl⟩

/-! ## C8 -/

/-- Every default preset range is `(0, hi)` with `0 < hi`. -/
lemma defaultRanges_lo_zero :
    ∀ p ∈ DEFAULT_FEATURE_RANGES, p.2.1 = 0 ∧ 0 < p.2.2 := by
  norm_num [DEFAULT_FEATURE_RANGES]

/-- The default scorer's normalizer maps a zero value to zero for every
feature name (known ranges all start at 0; unknown names pass through). -/
lemma defaultNormalize_zero (name : String) : defaultNormalize name 0 = 0 := by
  unfold defaultNormalize
  rw [MinMaxTransformValue_eq]
  have hpre : rangeFor defaultScorer.normalizer name =
      DEFAULT_FEATURE_RANGES.lookup name := by
    unfold rangeFor
    rw [show defaultScorer.normalizer.presetRanges = DEFAULT_FEATURE_RANGES from rfl,
      show defaultScorer.normalizer.stats = [] from rfl]
    cases h : DEFAULT_FEATURE_RANGES.lookup name with
    | some r => rfl
    | none => rfl
  rw [hpre]
  cases h : DEFAULT_FEATURE_RANGES.lookup name with
  | none => rfl
  | some r =>
    have hr := lookup_forall (fun r => r.1 = 0 ∧ 0 < r.2)
      DEFAULT_FEATURE_RANGES defaultRanges_lo_zero name r h
    show minmaxScale r.1 r.2 0 = 0
    rw [hr.1]
    exact minmaxScale_at_lo (hr.1 ▸ hr.2)

lemma computeTraitScore_all_zero (scorer : InterviewScorer)
    (features : List (String × ℚ)) (h : ∀ p ∈ features, p.2 = 0) (trait : String) :
    computeTraitScore scorer features trait = 0 := by
  rw [computeTraitScore_eq_sum]
  apply List.sum_eq_zero
  intro x hx
  obtain ⟨p, hp, rfl⟩ := List.mem_map.1 hx
  rw [h p hp, mul_zero]

/-- C8: a feature mapping whose (normalized) values are all zero gives a
raw weighted sum of 0 for every trait, hence a score of exactly 50 for
each of the five traits — in both normalization modes of the default
scorer (every default range starts at 0, so zeros normalize to zeros). -/
theorem C8_all_zero_features_score_50 (features : List (String × ℚ))
    (h : ∀ p ∈ features, p.2 = 0) (normalize : Bool) :
    (∀ trait, computeTraitScore defaultScorer (normIf normalize features) trait = 0) ∧
    scorerScore defaultScorer features normalize =
      .ok { overall := 50, recommend_hiring := 50, excited := 50,
            engagement := 50, friendliness := 50 } := by
  have hz : ∀ p ∈ normIf normalize features, p.2 = 0 := by
    cases normalize with
    | false => exact h
    | true =>
      intro p hp
      obtain ⟨q, hq, rfl⟩ := List.mem_map.1 hp
      show defaultNormalize q.1 q.2 = 0
      rw [h q hq]
      exact defaultNormalize_zero q.1
  have h0 : ∀ trait, computeTraitScore defaultScorer (normIf normalize features) trait = 0 :=
    fun trait => computeTraitScore_all_zero _ _ hz trait
  refine ⟨h0, ?_⟩
  rw [scorerScore_default_eq]
  simp only [h0, scaleScore_zero]

/-- Witness for C8 at a concrete all-zero feature mapping. -/
theorem C8_witness :
    scorerScore defaultScorer [("wpsec", 0), ("fpsec", 0), ("mystery", 0)] true =
      .ok { overall := 50, recommend_hiring := 50, excited := 50,
            engagement := 50, friendliness := 50 } :=
  (C8_all_zero_features_score_50 [("wpsec", 0), ("fpsec", 0), ("mystery", 0)]
    (by norm_num) true).2

/-! ## C6 -/

/-- The score of one trait as `InterviewScorer.score` computes it
(normalize-then-weighted-sum-then-sigmoid). -/
noncomputable def traitScoreD (features : List (String × ℚ)) (normalize : Bool)
    (trait : String) : ℝ :=
  scaleScore (computeTraitScore defaultScorer (normIf normalize features) trait)

/-- `scorerScore` of the default scorer is exactly the five `traitScoreD`
values. -/
lemma scorerScore_eq_traitScoreD (features : List (String × ℚ)) (normalize : Bool) :
    scorerScore defaultScorer features normalize = .ok
      { overall := traitScoreD features normalize "overall"
        recommend_hiring := traitScoreD features normalize "recommend_hiring"
        excited := traitScoreD features normalize "excited"
        engagement := traitScoreD features normalize "engagement"
        friendliness := traitScoreD features normalize "friendliness" } :=
  scorerScore_default_eq features normalize

/-- The normalized value a feature entry contributes under either mode. -/
def normValue (normalize : Bool) (name : String) (v : ℚ) : ℚ :=
  if normalize then defaultNormalize name v else v

lemma normValue_mono (normalize : Bool) (name : String) {v w : ℚ} (hvw : v ≤ w) :
    normValue normalize name v ≤ normValue normalize name w := by
  unfold normValue
  cases normalize with
  | false => simpa using hvw
  | true =>
    simp only [if_pos]
    exact MinMaxTransformValue_mono defaultScorer.normalizer name hvw

lemma normIf_append_cons (normalize : Bool) (pre post : List (String × ℚ))
    (name : String) (v : ℚ) :
    normIf normalize (pre ++ (name, v) :: post)
      = normIf normalize pre ++ (name, normValue normalize name v) :: normIf normalize post := by
  cases normalize with
  | false => rfl
  | true => simp [normIf, normValue, defaultNormalize]

/-- The weighted raw sum splits around one entry. -/
lemma computeTraitScore_append_cons (pre post : List (String × ℚ))
    (name : String) (v : ℚ) (trait : String) :
    computeTraitScore defaultScorer (pre ++ (name, v) :: post) trait
      = computeTraitScore defaultScorer pre trait
        + traitWeight defaultScorer trait name * v
        + computeTraitScore defaultScorer post trait := by
  rw [computeTraitScore_eq_sum, computeTraitScore_eq_sum, computeTraitScore_eq_sum,
    List.map_append, List.sum_append, List.map_cons, List.sum_cons]
  ring

/-- C6: with all other features held fixed, raising a feature with a
positive weight for a trait never decreases that trait's score, and
raising a feature with a negative weight never increases it — in both
normalization modes (the min-max transform is monotone non-decreasing and
the sigmoid is increasing). -/
theorem C6_weight_sign_monotonicity (trait name : String) (w : ℚ)
    (hw : ((FEATURE_WEIGHTS.lookup trait).getD []).lookup name = some w)
    (pre post : List (String × ℚ)) (v v' : ℚ) (hv : v ≤ v') (normalize : Bool) :
    (0 < w →
      traitScoreD (pre ++ (name, v) :: post) normalize trait
        ≤ traitScoreD (pre ++ (name, v') :: post) normalize trait) ∧
    (w < 0 →
      traitScoreD (pre ++ (name, v') :: post) normalize trait
        ≤ traitScoreD (pre ++ (name, v) :: post) normalize trait) := by
  have hwt : traitWeight defaultScorer trait name = w := by
    unfold traitWeight
    rw [show defaultScorer.weights = FEATURE_WEIGHTS from rfl, hw]
    rfl
  have hnv : normValue normalize name v ≤ normValue normalize name v' :=
    normValue_mono normalize name hv
  constructor
  · intro hpos
    unfold traitScoreD
    apply scaleScore_mono
    rw [normIf_append_cons, normIf_append_cons, computeTraitScore_append_cons,
      computeTraitScore_append_cons, hwt]
    have hm : w * normValue normalize name v ≤ w * normValue normalize name v' :=
      mul_le_mul_of_nonneg_left hnv (le_of_lt hpos)
    linarith
  · intro hneg
    unfold traitScoreD
    apply scaleScore_mono
    rw [normIf_append_cons, normIf_append_cons, computeTraitScore_append_cons,
      computeTraitScore_append_cons, hwt]
    have hm : w * normValue normalize name v' ≤ w * normValue normalize name v :=
      mul_le_mul_of_nonpos_left hnv (le_of_lt hneg)
    linarith

/-- Witness for C6: raising `wpsec` (positive weight 0.11 for "overall")
from 0 to 1 does not lower the overall score; raising `fpsec` (negative
weight) from 0 to 1 does not raise it. -/
theorem C6_witness :
    traitScoreD [("wpsec", 0)] true "overall" ≤ traitScoreD [("wpsec", 1)] true "overall" ∧
    traitScoreD [("fpsec", 1)] true "overall" ≤ traitScoreD [("fpsec", 0)] true "overall" :=
  ⟨(C6_weight_sign_monotonicity "overall" "wpsec" 0.11 rfl [] [] 0 1
      (by norm_num) true).1 (by norm_num),
   (C6_weight_sign_monotonicity "overall" "fpsec" (-0.086) rfl [] [] 0 1
      (by norm_num) true).2 (by norm_num)⟩

/-! ## C3 -/

/-- C3 counterexample: a preset z-score parameter with `std = 0` makes
`transform` return `0.0`, not the centered value `value - mean` (here
`value = 5`, `mean = 0`, so the claim predicts `5`). -/
theorem C3_counterexample :
    ZScoreTransform (ZScoreInit (some [("f", ⟨0, 0, 1⟩)])) [("f", 5)] =
      .ok [("f", 0)] ∧ (5 : ℝ) - 0 ≠ 0 := by
  constructor
  · unfold ZScoreTransform ZScoreInit
    norm_num [List.lookup]
  · norm_num

lemma collect_replicate (c : ℝ) : ∀ (k : ℕ) (vs : List ℝ),
    List.foldl (fun acc fs => fs.foldl (fun a (p : String × ℝ) => addValue a p.1 p.2) acc)
      [("f", vs)] (List.replicate k [("f", c)]) = [("f", vs ++ List.replicate k c)] := by
  intro k
  induction k with
  | zero => intro vs; simp
  | succ k ih =>
    intro vs
    rw [List.replicate_succ, List.foldl_cons]
    have h1 : List.foldl (fun a (p : String × ℝ) => addValue a p.1 p.2)
        [("f", vs)] [("f", c)] = [("f", vs ++ [c])] := by
      simp [addValue]
    rw [h1, ih]
    simp [List.replicate_succ]

lemma collectValues_replicate (c : ℝ) (k : ℕ) :
    collectValues (List.replicate (k + 1) [("f", c)]) = [("f", List.replicate (k + 1) c)] := by
  unfold collectValues
  rw [List.replicate_succ, List.foldl_cons]
  have h1 : List.foldl (fun a (p : String × ℝ) => addValue a p.1 p.2)
      [] [("f", c)] = [("f", [c])] := by simp [addValue]
  rw [h1, collect_replicate]
  simp [List.replicate_succ]

/-- Fitting a batch in which feature `"f"` is constantly `c` stores mean
`c` and — because the sample deviation is 0 — the substituted std `1.0`. -/
lemma zscoreFit_constant (c : ℝ) (k : ℕ) :
    ZScoreFit (ZScoreInit none) (List.replicate (k + 1) [("f", c)]) =
      { stats := [("f", ⟨c, 1, k + 1⟩)], isFitted := true } := by
  unfold ZScoreFit
  rw [if_neg (by simp [List.replicate_succ])]
  rw [collectValues_replicate]
  simp only [List.map_cons, List.map_nil]
  have hmean : (List.replicate (k + 1) c).sum / ((List.replicate (k + 1) c).length : ℝ) = c := by
    rw [List.sum_replicate, List.length_replicate, nsmul_eq_mul]
    exact mul_div_cancel_left₀ c (by positivity)
  rw [hmean]
  simp [List.map_replicate, List.sum_replicate, List.length_replicate, Real.sqrt_zero]

/-- Every stat stored by `fit` has a positive std (a zero std is replaced
by `1.0` before storing). -/
lemma zscoreFit_std_pos (n0 : ZScoreNormalizer)
    (h0 : ∀ p ∈ n0.stats, 0 < p.2.std) (fl : List (List (String × ℝ))) :
    ∀ p ∈ (ZScoreFit n0 fl).stats, 0 < p.2.std := by
  unfold ZScoreFit
  split
  · exact h0
  · intro p hp
    obtain ⟨q, _, rfl⟩ := List.mem_map.1 hp
    dsimp only
    split
    · next h => exact h
    · exact one_pos

/-- C3 as amended: a std computed by `fit` is always positive (0 is
replaced by `1.0` at fit time), so for a constant feature `transform`
returns the centered value; but a preset std of exactly `0` reaches the
`std > 0` guard in `transform` and yields `0.0`, not the centered value. -/
theorem C3_std_zero_fit_vs_preset :
    (∀ (fl : List (List (String × ℝ))) (name : String),
      Option.elim ((ZScoreFit (ZScoreInit none) fl).stats.lookup name) True
        (fun s => 0 < s.std)) ∧
    (∀ (c v : ℝ) (k : ℕ),
      ZScoreTransform (ZScoreFit (ZScoreInit none) (List.replicate (k + 1) [("f", c)]))
        [("f", v)] = .ok [("f", v - c)]) ∧
    (∀ (name : String) (mean : ℝ) (cnt : ℕ) (v : ℝ),
      ZScoreTransform (ZScoreInit (some [(name, ⟨mean, 0, cnt⟩)])) [(name, v)] =
        .ok [(name, 0)]) := by
  refine ⟨?_, ?_, ?_⟩
  · intro fl name
    cases hl : (ZScoreFit (ZScoreInit none) fl).stats.lookup name with
    | none => exact trivial
    | some s =>
      exact lookup_forall (fun s => 0 < s.std) _
        (zscoreFit_std_pos (ZScoreInit none) (by simp [ZScoreInit]) fl) name s hl
  · intro c v k
    rw [zscoreFit_constant]
    unfold ZScoreTransform
    norm_num [List.lookup]
  · intro name mean cnt v
    unfold ZScoreTransform ZScoreInit
    norm_num [List.lookup]

/-! ## C7 -/

lemma safeRate_zero_count (d : ℚ) : safeRate 0 d = 0 := by
  unfold safeRate
  split
  · rfl
  · exact zero_div d

/-- C7: `fpsec` and `nonfluency_ratio` are computed from the same
per-token weighted filler sum over content tokens, and in both the sum is
floored to an integer before the division. -/
theorem C7_filler_sum_shared_and_truncated (tokens : List Token) (duration : ℚ) :
    countNonfluency (contentTokens tokens) = fillerCountLoop (contentTokens tokens) ∧
    (SpeakingRateExtract tokens duration).fpsec =
      safeRate ((⌊fillerCountLoop (contentTokens tokens)⌋ : ℤ) : ℚ) duration ∧
    (MiscExtract tokens duration).nonfluency_ratio =
      safeRatio ((⌊fillerCountLoop (contentTokens tokens)⌋ : ℤ) : ℚ)
        ((contentTokens tokens).length : ℚ) := by
  have hnn : 0 ≤ fillerCountLoop (contentTokens tokens) := by
    rw [← countNonfluency_eq_fillerCountLoop]
    exact countNonfluency_nonneg _
  refine ⟨congrFun countNonfluency_eq_fillerCountLoop _, ?_, ?_⟩
  · show safeRate ((pyInt (fillerCountLoop (contentTokens tokens)) : ℤ) : ℚ) duration = _
    rw [pyInt_of_nonneg hnn]
  · show safeRatio ((pyInt (countNonfluency (contentTokens tokens)) : ℤ) : ℚ) _ = _
    rw [countNonfluency_eq_fillerCountLoop, pyInt_of_nonneg hnn]

/-! ## C10 -/

/-- Inserting a token whose tag is excluded leaves the content tokens
unchanged. -/
lemma contentTokens_insert_excluded (pre post : List Token) (t : Token)
    (h : EXCLUDED_TAGS.contains t.tag = true) :
    contentTokens (pre ++ t :: post) = contentTokens (pre ++ post) := by
  unfold contentTokens
  rw [List.filter_append, List.filter_append, List.filter_cons]
  rw [h]
  rfl

/-- C10: the excluded-tag set contains the Arabic-numeral tag `"SN"` while
the number POS category is `{"SN", "NR"}`; hence an `SN`-tagged token
changes no extractor's output (it is dropped from every numerator and from
the shared denominator, and from `wc`/`uc`), and `number_ratio` counts only
`NR`-tagged tokens. -/
theorem C10_SN_excluded_everywhere :
    ("SN" ∈ EXCLUDED_TAGS ∧ NUMBER_TAGS = ["SN", "NR"]) ∧
    (∀ (pre post : List Token) (t : Token) (duration : ℚ), t.tag = "SN" →
      SpeakingRateExtract (pre ++ t :: post) duration = SpeakingRateExtract (pre ++ post) duration ∧
      PronounExtract (pre ++ t :: post) duration = PronounExtract (pre ++ post) duration ∧
      POSExtract (pre ++ t :: post) duration = POSExtract (pre ++ post) duration ∧
      EmotionExtract (pre ++ t :: post) duration = EmotionExtract (pre ++ post) duration ∧
      CognitiveExtract (pre ++ t :: post) duration = CognitiveExtract (pre ++ post) duration ∧
      MiscExtract (pre ++ t :: post) duration = MiscExtract (pre ++ post) duration) ∧
    (∀ (tokens : List Token) (duration : ℚ),
      (POSExtract tokens duration).number_ratio =
        safeRatio (((contentTokens tokens).countP (fun tk => tk.tag == "NR") : ℕ) : ℚ)
          ((contentTokens tokens).length : ℚ)) := by
  refine ⟨⟨by decide, rfl⟩, ?_, ?_⟩
  · intro pre post t duration ht
    have hc : contentTokens (pre ++ t :: post) = contentTokens (pre ++ post) :=
      contentTokens_insert_excluded pre post t (by rw [ht]; decide)
    refine ⟨?_, ?_, ?_, ?_, ?_, ?_⟩
    · unfold SpeakingRateExtract; rw [hc]
    · unfold PronounExtract; rw [hc]
    · unfold POSExtract; rw [hc]
    · unfold EmotionExtract; rw [hc]
    · unfold CognitiveExtract; rw [hc]
    · unfold MiscExtract; rw [hc]
  · intro tokens duration
    show safeRatio ((countByPos (contentTokens tokens) NUMBER_TAGS : ℕ) : ℚ) _ = _
    have hcount : countByPos (contentTokens tokens) NUMBER_TAGS =
        (contentTokens tokens).countP (fun tk => tk.tag == "NR") := by
      unfold countByPos
      apply List.countP_congr
      intro tk htk
      have hcf : EXCLUDED_TAGS.contains tk.tag = false := by
        simpa using List.of_mem_filter htk
      have hne : tk.tag ≠ "SN" := by
        intro hsn
        rw [hsn] at hcf
        exact absurd hcf (by decide)
      have hb : (tk.tag == "SN") = false := beq_false_of_ne hne
      show NUMBER_TAGS.contains tk.tag = true ↔ (tk.tag == "NR") = true
      simp only [NUMBER_TAGS, List.contains_cons, List.contains_nil, Bool.or_false,
        Bool.or_eq_true, beq_iff_eq]
      constructor
      · intro h
        rcases h with h | h
        · exact absurd h hne
        · exact h
      · intro h
        exact Or.inr h
    rw [hcount]

/-! ## C5 -/

/-- A value in the unit interval. -/
def inUnit (q : ℚ) : Prop := 0 ≤ q ∧ q ≤ 1

lemma countP_ratio_unit (p : Token → Bool) (l : List Token) :
    inUnit (safeRatio ((l.countP p : ℕ) : ℚ) ((l.length : ℕ) : ℚ)) :=
  ⟨safeRatio_nonneg (by positivity) (by positivity),
   safeRatio_le_one (by exact_mod_cast List.countP_le_length p) (by positivity)⟩

lemma inUnit_safeRatio_zero_num (t : ℚ) (ht : 0 ≤ t) : inUnit (safeRatio 0 t) :=
  ⟨safeRatio_nonneg le_rfl ht, safeRatio_le_one ht ht⟩

lemma nonfluency_ratio_unit (l : List Token) :
    inUnit (safeRatio ((pyInt (countNonfluency l) : ℤ) : ℚ) ((l.length : ℕ) : ℚ)) := by
  have hnn : (0 : ℚ) ≤ ((pyInt (countNonfluency l) : ℤ) : ℚ) := by
    exact_mod_cast pyInt_nonneg (countNonfluency_nonneg l)
  have hle : ((pyInt (countNonfluency l) : ℤ) : ℚ) ≤ ((l.length : ℕ) : ℚ) :=
    pyInt_cast_le (countNonfluency_nonneg l) (countNonfluency_le_length l)
  exact ⟨safeRatio_nonneg hnn (by positivity), safeRatio_le_one hle (by positivity)⟩

/-- C5: each of the six extractors is a total function (the embedding
returns a record, never an error); with zero content tokens every output
feature is 0; every ratio-valued output lies in `[0, 1]`; the three rates
are nonnegative; and a zero duration forces `wpsec = upsec = fpsec = 0`
regardless of the token list. -/
theorem C5_extractors_total_zero_safe (tokens : List Token) (duration : ℚ) :
    (contentTokens tokens = [] →
      SpeakingRateExtract tokens duration = ⟨0, 0, 0, 0, 0⟩ ∧
      PronounExtract tokens duration = ⟨0, 0, 0⟩ ∧
      POSExtract tokens duration = ⟨0, 0, 0, 0, 0, 0⟩ ∧
      EmotionExtract tokens duration = ⟨0, 0, 0, 0, 0⟩ ∧
      CognitiveExtract tokens duration = ⟨0, 0, 0⟩ ∧
      MiscExtract tokens duration = ⟨0, 0, 0, 0, 0, 0⟩) ∧
    (inUnit (PronounExtract tokens duration).i_ratio ∧
      inUnit (PronounExtract tokens duration).we_ratio ∧
      inUnit (PronounExtract tokens duration).they_ratio) ∧
    (inUnit (POSExtract tokens duration).article_ratio ∧
      inUnit (POSExtract tokens duration).verb_ratio ∧
      inUnit (POSExtract tokens duration).adverb_ratio ∧
      inUnit (POSExtract tokens duration).preposition_ratio ∧
      inUnit (POSExtract tokens duration).conjunction_ratio ∧
      inUnit (POSExtract tokens duration).number_ratio) ∧
    (inUnit (EmotionExtract tokens duration).pos_emotion_ratio ∧
      inUnit (EmotionExtract tokens duration).neg_emotion_ratio ∧
      inUnit (EmotionExtract tokens duration).anxiety_ratio ∧
      inUnit (EmotionExtract tokens duration).anger_ratio ∧
      inUnit (EmotionExtract tokens duration).sadness_ratio) ∧
    (inUnit (CognitiveExtract tokens duration).cognitive_ratio ∧
      inUnit (CognitiveExtract tokens duration).inhibition_ratio ∧
      inUnit (CognitiveExtract tokens duration).perceptual_ratio) ∧
    (inUnit (MiscExtract tokens duration).nonfluency_ratio ∧
      inUnit (MiscExtract tokens duration).negation_ratio ∧
      inUnit (MiscExtract tokens duration).quantifier_ratio ∧
      inUnit (MiscExtract tokens duration).work_ratio ∧
      inUnit (MiscExtract tokens duration).relativity_ratio ∧
      inUnit (MiscExtract tokens duration).swear_ratio) ∧
    (0 ≤ (SpeakingRateExtract tokens duration).wpsec ∧
      0 ≤ (SpeakingRateExtract tokens duration).upsec ∧
      0 ≤ (SpeakingRateExtract tokens duration).fpsec ∧
      0 ≤ (SpeakingRateExtract tokens duration).wc ∧
      0 ≤ (SpeakingRateExtract tokens duration).uc) ∧
    (duration = 0 →
      (SpeakingRateExtract tokens duration).wpsec = 0 ∧
      (SpeakingRateExtract tokens duration).upsec = 0 ∧
      (SpeakingRateExtract tokens duration).fpsec = 0) := by
  refine ⟨?_, ?_, ?_, ?_, ?_, ?_, ?_, ?_⟩
  · intro hc
    refine ⟨?_, ?_, ?_, ?_, ?_, ?_⟩
    · unfold SpeakingRateExtract
      rw [hc]
      simp [safeRate_zero_count, fillerCountLoop, pyInt,
        show (List.eraseDups ([] : List String)) = [] from rfl]
    · unfold PronounExtract
      rw [hc]
      simp [safeRatio_zero_total]
    · unfold POSExtract
      rw [hc]
      simp [safeRatio_zero_total, countByPos]
    · unfold EmotionExtract
      rw [hc]
      simp [safeRatio_zero_total, countEmotionWords]
    · unfold CognitiveExtract
      rw [hc]
      simp [safeRatio_zero_total, countCognitiveWords]
    · unfold MiscExtract
      rw [hc]
      simp [safeRatio_zero_total, countNonfluency, countNegations,
        countDictionaryWords, pyInt]
  · exact ⟨countP_ratio_unit _ _, countP_ratio_unit _ _, countP_ratio_unit _ _⟩
  · exact ⟨countP_ratio_unit _ _, countP_ratio_unit _ _, countP_ratio_unit _ _,
      countP_ratio_unit _ _, countP_ratio_unit _ _, countP_ratio_unit _ _⟩
  · exact ⟨countP_ratio_unit _ _, countP_ratio_unit _ _, countP_ratio_unit _ _,
      countP_ratio_unit _ _, countP_ratio_unit _ _⟩
  · exact ⟨countP_ratio_unit _ _, countP_ratio_unit _ _, countP_ratio_unit _ _⟩
  · exact ⟨nonfluency_ratio_unit _, countP_ratio_unit _ _, countP_ratio_unit _ _,
      countP_ratio_unit _ _, countP_ratio_unit _ _,
      inUnit_safeRatio_zero_num _ (by positivity)⟩
  · refine ⟨safeRate_nonneg (by positivity), safeRate_nonneg (by positivity),
      safeRate_nonneg ?_, ?_, ?_⟩
    · exact_mod_cast pyInt_nonneg (by
        rw [← countNonfluency_eq_fillerCountLoop]
        exact countNonfluency_nonneg _)
    · show (0 : ℚ) ≤ ((contentTokens tokens).length : ℚ)
      positivity
    · show (0 : ℚ) ≤ (((contentTokens tokens).map (·.form)).eraseDups.length : ℚ)
      positivity
  · intro hd
    rw [hd]
    refine ⟨?_, ?_, ?_⟩
    · show safeRate ((contentTokens tokens).length : ℚ) 0 = 0
      exact safeRate_zero_duration _
    · show safeRate (((contentTokens tokens).map (·.form)).eraseDups.length : ℚ) 0 = 0
      exact safeRate_zero_duration _
    · show safeRate ((pyInt (fillerCountLoop (contentTokens tokens)) : ℤ) : ℚ) 0 = 0
      exact safeRate_zero_duration _
